import Mathlib

/-!
Shallow embedding of the request pipeline of `src/app.py` (a Slack bot that
fetches a PDF, compresses it and republishes it to Google Drive), together
with theorems settling the specification claims.

Python strings are modelled as `List Char`; each helper mirrors the exact
semantics of the Python operation it embeds (`str.replace`, `in`,
`str.split`, `re.search` on the pattern `https?://[^\s]+`, and the parts of
`urllib.parse.urlparse` exercised by the code).
-/

abbrev Str := List Char

/-- The character class matched by the whitespace escape of the regex in
`extract_url` (`src/app.py` line 38).  Python's `re` on `str` matches
exactly the characters for which `str.isspace()` holds: the ASCII
whitespace, the separator controls `\x1c`-`\x1f`, next-line `\x85`,
no-break space `\xa0`, and the Unicode space separators. -/
def isSpace (c : Char) : Bool :=
  c == ' ' || c == '\t' || c == '\n' || c == '\r' || c == '\x0b' || c == '\x0c'
  || c == '\x1c' || c == '\x1d' || c == '\x1e' || c == '\x1f'
  || c == '\x85' || c == '\xa0' || c == '\u1680'
  || ('\u2000' ≤ c && c ≤ '\u200a')
  || c == '\u2028' || c == '\u2029' || c == '\u202f' || c == '\u205f' || c == '\u3000'

/-- `leadsWith p l` holds when `p` is an initial run of `l`
(Python `l.startswith(p)` on strings). -/
def leadsWith : Str → Str → Bool
  | [], _ => true
  | _ :: _, [] => false
  | p :: ps, c :: cs => p == c && leadsWith ps cs

/-- `endsList p l` holds when `p` is a final run of `l`
(Python `l.endswith(p)`). -/
def endsList (p l : Str) : Bool :=
  leadsWith p.reverse l.reverse

/-- `listContains pat l` models the Python substring test `pat in l`. -/
def listContains (pat : Str) : Str → Bool
  | [] => pat.isEmpty
  | c :: rest => leadsWith pat (c :: rest) || listContains pat rest

/-- Fuel-indexed engine for Python `str.replace`: scan left to right, at
each position replace the leftmost occurrence of the (nonempty) pattern and
continue after the inserted replacement, otherwise copy one character.
The fuel is always instantiated with the length of the string, which is
sufficient because every step consumes at least one character. -/
def pyRepFuel (pat rep : Str) : Nat → Str → Str
  | 0, s => s
  | _ + 1, [] => []
  | n + 1, c :: rest =>
    if leadsWith pat (c :: rest) then
      rep ++ pyRepFuel pat rep n (rest.drop (pat.length - 1))
    else
      c :: pyRepFuel pat rep n rest

/-- Python `s.replace(pat, rep)` (all occurrences, leftmost first,
non-overlapping). -/
def pyReplace (pat rep s : Str) : Str :=
  pyRepFuel pat rep s.length s

/-- Python `s.split(sep)` for a one-character separator: the list of chunks
between occurrences of `sep`, keeping empty chunks.  The result is always
nonempty. -/
def pySplit (sep : Char) : Str → List Str
  | [] => [[]]
  | c :: rest =>
    match pySplit sep rest with
    | [] => [[c]]
    | h :: t => if c == sep then [] :: h :: t else (c :: h) :: t

/-- Python `url.split("/")[-1]` (`src/app.py` line 180): the final chunk of
the slash-split, i.e. everything after the last slash. -/
def splitLastSeg (l : Str) : Str :=
  (pySplit '/' l).getLastD []

/-- The claim's reading of the filename rule: the characters after the last
slash, written independently of `pySplit`. -/
def afterLastSlash (l : Str) : Str :=
  (l.reverse.takeWhile (fun c => !(c == '/'))).reverse

/-- The claim's original reading of the URL filename rule: the final path
segment of the URL with any query string stripped first. -/
def specUrlFilename (url : Str) : Str :=
  afterLastSlash (url.takeWhile (fun c => !(c == '?')))

/-- The `;params` split `urlparse` applies to the path of an HTTP(S) URL
(both schemes use params): a `;` occurring in the final path segment
starts the params, which are removed from the path; a `;` in an earlier
segment is left alone.  When the path contains no slash the split is at
its first `;`. -/
def splitParams (p : Str) : Str :=
  let last := afterLastSlash p
  if ';' ∈ last then
    p.take (p.length - last.length) ++ last.takeWhile (fun c => !(c == ';'))
  else
    p

/-- Length of the scheme prefix when the string starts with an HTTP(S)
scheme, as matched literally by the regex `https?://`. -/
def httpPrefixLen (l : Str) : Option Nat :=
  if leadsWith ("https://".data) l then some 8
  else if leadsWith ("http://".data) l then some 7
  else none

/-- Whether the regex `https?://[^\s]+` of `extract_url` matches at the
head of `l`: an HTTP(S) scheme prefix followed by at least one
non-whitespace character. -/
def matchStartB (l : Str) : Bool :=
  match httpPrefixLen l with
  | some n =>
    match l.drop n with
    | [] => false
    | c :: _ => !isSpace c
  | none => false

/-- `re.search(r'(https?://[^\s]+)', text)` (`src/app.py` lines 37-40):
the match at the leftmost position where the pattern matches, extended
greedily through the following non-whitespace characters. -/
def findUrl : Str → Option Str
  | [] => none
  | c :: rest =>
    if matchStartB (c :: rest) then
      some ((c :: rest).takeWhile (fun ch => !isSpace ch))
    else
      findUrl rest

/-- `extract_url` of `src/app.py`: first regex match in the text, or
`none`. -/
def extract_url (text : Str) : Option Str :=
  findUrl text

/-- The amended claim's reading of `extract_url`, stated through explicit
position search: the substring starting at the first index where an
`https?://` match begins, extended through the following non-whitespace
run. -/
def specFirstUrl (l : Str) : Option Str :=
  ((List.range l.length).find? (fun i => matchStartB (l.drop i))).map
    (fun i => (l.drop i).takeWhile (fun c => !isSpace c))

/-- The claim's original reading of the URL selection rule: the first
maximal whitespace-delimited token of the text that starts with
`http://` or `https://`. -/
def specTokenUrl (l : Str) : Option Str :=
  ((l.splitOnP isSpace).filter (fun t => !t.isEmpty)).find?
    (fun t => leadsWith ("http://".data) t || leadsWith ("https://".data) t)

/-- The path component of an HTTP(S) URL as computed by
`urllib.parse.urlparse(url).path`: drop the scheme, drop the network
location (up to the first of `/`, `?`, `#`), keep everything before the
query or fragment, and finally strip the `;params` of the last path
segment. -/
def urlPath (url : Str) : Str :=
  let rest :=
    match httpPrefixLen url with
    | some n => url.drop n
    | none => url
  splitParams
    ((rest.dropWhile (fun c => !(c == '/' || c == '?' || c == '#'))).takeWhile
      (fun c => !(c == '?' || c == '#')))

/-- The network-location (host) component of an HTTP(S) URL, used to state
which domain a URL actually belongs to. -/
def urlHost (url : Str) : Str :=
  let rest :=
    match httpPrefixLen url with
    | some n => url.drop n
    | none => url
  rest.takeWhile (fun c => !(c == '/' || c == '?' || c == '#'))

/-- `is_pdf_url` of `src/app.py` lines 32-34:
`urlparse(url).path.lower().endswith(".pdf")`. -/
def is_pdf_url (url : Str) : Bool :=
  endsList (".pdf".data) ((urlPath url).map Char.toLower)

/-- The Dropbox rewrite of `download_file` (`src/app.py` lines 44-45):
when the URL contains `dropbox.com`, replace the literal `?d1=0` by `?d1=1`
(note: the source really writes `d1`, digit one, not `dl`) and
`www.dropbox.com` by `dl.dropboxusercontent.com`. -/
def dropboxRewrite (url : Str) : Str :=
  if listContains ("dropbox.com".data) url then
    pyReplace ("www.dropbox.com".data) ("dl.dropboxusercontent.com".data)
      (pyReplace ("?d1=0".data) ("?d1=1".data) url)
  else
    url

/-- The request issued by `download_file` (`src/app.py` lines 43-49): the
effective URL after the Dropbox rewrite, and whether the bot's bearer token
header is attached (`"slack.com" in url` on the rewritten URL). -/
def downloadRequest (url : Str) : Str × Bool :=
  let u := dropboxRewrite url
  (u, listContains ("slack.com".data) u)

/-- `optimized_name` of `src/app.py` line 182:
`original_filename.replace(".pdf", "") + "_cmp.pdf"`. -/
def optimized_name (originalFilename : Str) : Str :=
  pyReplace (".pdf".data) [] originalFilename ++ ("_cmp.pdf".data)

/-- The claim's reading of the published-name rule: delete every occurrence
of `.pdf` (leftmost first, continuing after each deletion), then append
`_cmp.pdf`.  The deletion engine is written as its own specialised
recursion so that agreement with the `str.replace`-based source code is a
theorem, not a definition. -/
def deletePdfFuel : Nat → Str → Str
  | 0, s => s
  | _ + 1, [] => []
  | n + 1, c :: rest =>
    if leadsWith (".pdf".data) (c :: rest) then
      deletePdfFuel n (rest.drop 3)
    else
      c :: deletePdfFuel n rest

def specOptimizedName (originalFilename : Str) : Str :=
  deletePdfFuel originalFilename.length originalFilename ++ ("_cmp.pdf".data)

/-! ## Google Drive folder resolution (`upload_to_drive`, lines 84-94) -/

structure DriveFolder where
  fid : Nat
  fname : Str
  trashed : Bool
deriving DecidableEq

/-- The Drive contents visible to the bot: the folders it can list, plus a
counter supplying the identifier of the next created object. -/
structure Drive where
  folders : List DriveFolder
  nextId : Nat
deriving DecidableEq

/-- The query sent by `upload_to_drive`:
`name='{channel_name}' and mimeType='...folder' and trashed=False`. -/
def folderQuery (channelName : Str) (f : DriveFolder) : Bool :=
  f.fname == channelName && f.trashed == false

/-- The folder-resolution step of `upload_to_drive` (`src/app.py` lines
85-94): list folders matching the query and take the first hit, else
create a folder of that name.  Returns the resolved folder id, the Drive
state afterwards, and the number of folder-create calls performed. -/
def upload_to_drive_folder (channelName : Str) (d : Drive) : Nat × Drive × Nat :=
  match d.folders.find? (folderQuery channelName) with
  | some f => (f.fid, d, 0)
  | none =>
    (d.nextId,
     { folders := d.folders ++ [⟨d.nextId, channelName, false⟩], nextId := d.nextId + 1 },
     1)

/-! ## The mention handler (`handle_mentions`, lines 107-249) -/

/-- A Python exception: either a `SlackApiError` or any other `Exception`,
carrying its message text.  These are the two classes distinguished by the
handler's `except` clauses. -/
inductive Exc where
  | slackApi (m : Str)
  | other (m : Str)
deriving DecidableEq

/-- The distinct user-visible messages the handler can send, identified by
their fixed template. -/
inductive Msg where
  /-- "Easy now... only one PDF at a time there cowboy..." (line 127) -/
  | tooMany
  /-- "that doesn't work... no, just not gonna work..." blocks (lines 130-148) -/
  | unsupported
  /-- "this is not the right kind of link..." blocks (lines 159-176) -/
  | wrongLink
  /-- "working on that..." blocks (lines 185-202) -/
  | working
  /-- "Here's your optimized file: <link|Download it here>" (line 206) -/
  | success (link : Str)
  /-- f-string "Something went wrong while processing the file: {e}" (line 210) -/
  | slackRaw (m : Str)
  /-- f-string "An unexpected error occurred: {e}" (line 231) -/
  | unexpectedRaw (m : Str)
  /-- "uh oh... we have a problem " blocks (lines 211-228 / 232-249) -/
  | genericProblem
deriving DecidableEq

/-- The externally observable actions of one handler run, in order.
External requests (`users_info`, `conversations_info`, the download, the
Ghostscript invocation and the Drive upload) are recorded when attempted;
a `say` is recorded when the reply is delivered, together with the
`thread_ts` argument it was sent with (`none` when the source passes no
`thread_ts`). -/
inductive Act where
  | usersInfo (user : Str)
  | convInfo (channel : Str)
  | say (m : Msg) (threadTs : Option Str)
  | download (url : Str) (auth : Bool) (dest : Str)
  | optimize (inputFile outputFile : Str)
  | upload (path name folder : Str)
deriving DecidableEq

/-- One inbound `app_mention` event: the fields of the Slack payload read
by the handler.  A file descriptor carries the fields the code reads:
`filetype`, `name`, `url_private_download`. -/
structure SlackFile where
  filetype : Str
  name : Str
  url_private_download : Str
deriving DecidableEq

structure SlackEvent where
  channel : Str
  user : Str
  ts : Str
  files : List SlackFile
  text : Str
deriving DecidableEq

/-- The environment oracle fixing the outcome of every external call of one
run: the names returned by the Slack info calls, whether each external
operation raises (and with which exception), and the link returned by the
Drive upload.  A `say` outcome is per call site. -/
structure Env where
  userName : Str
  channelName : Str
  usersInfoErr : Option Exc
  convInfoErr : Option Exc
  downloadErr : Option Exc
  optimizeErr : Option Exc
  uploadResult : Except Exc Str
  sayTooManyErr : Option Exc
  sayUnsupportedErr : Option Exc
  sayWrongLinkErr : Option Exc
  sayWorkingErr : Option Exc
  saySuccessErr : Option Exc
  saySlackRawErr : Option Exc
  sayUnexpectedRawErr : Option Exc
  sayGenericErr : Option Exc

/-- Terminal status of a run: `done` (the success path finished), `failed`
(a rejection `return` or a caught exception, the spec's `Failed` state), or
`crashed e` (exception `e` escaped the handler). -/
inductive Outcome where
  | done
  | failed
  | crashed (e : Exc)
deriving DecidableEq

/-- Reasons of the three input rejections of the resolver. -/
inductive Rejection where
  | tooMany
  | unsupported
  | wrongLink
deriving DecidableEq

instance {ε α : Type} [DecidableEq ε] [DecidableEq α] : DecidableEq (Except ε α) := fun x y =>
  match x, y with
  | .ok a, .ok b =>
    if h : a = b then isTrue (by rw [h]) else isFalse (by intro hc; cases hc; exact h rfl)
  | .error a, .error b =>
    if h : a = b then isTrue (by rw [h]) else isFalse (by intro hc; cases hc; exact h rfl)
  | .ok _, .error _ => isFalse (by intro hc; cases hc)
  | .error _, .ok _ => isFalse (by intro hc; cases hc)

/-- The Input Resolver: lines 124-180 of `handle_mentions`.  With
attachments present: more than one rejects with `tooMany`; a single
attachment whose `filetype` is not `"pdf"` rejects with `unsupported`,
else resolves to its private download URL and declared name.  With no
attachment: the first regex URL of the text must exist and satisfy
`is_pdf_url`, else `wrongLink`; it resolves to the URL itself and
`url.split("/")[-1]` as filename. -/
def resolve_source (ev : SlackEvent) : Except Rejection (Str × Str) :=
  match ev.files with
  | [] =>
    match extract_url ev.text with
    | none => .error .wrongLink
    | some url =>
      if is_pdf_url url then .ok (url, splitLastSeg url)
      else .error .wrongLink
  | [fi] =>
    if fi.filetype == ("pdf".data) then .ok (fi.url_private_download, fi.name)
    else .error .unsupported
  | _ :: _ :: _ => .error .tooMany

/-- The message sent first by each `except` clause, carrying the
exception's text. -/
def rawMsgOf : Exc → Msg
  | .slackApi m => .slackRaw m
  | .other m => .unexpectedRaw m

/-- The `except` clauses of `handle_mentions` (lines 208-249).  Both send a
raw error-text reply without `thread_ts` and then the templated
"uh oh... we have a problem" reply threaded to the event, and return, so
the run ends `failed`; an exception raised by either of those `say` calls
itself propagates out of the handler (`crashed`). -/
def exceptClauses (ev : SlackEvent) (env : Env) (acts : List Act) (e : Exc) :
    List Act × Outcome :=
  let rawErr :=
    match e with
    | .slackApi _ => env.saySlackRawErr
    | .other _ => env.sayUnexpectedRawErr
  match rawErr with
  | some e1 => (acts, .crashed e1)
  | none =>
    let acts1 := acts ++ [.say (rawMsgOf e) none]
    match env.sayGenericErr with
    | some e2 => (acts1, .crashed e2)
    | none => (acts1 ++ [.say .genericProblem (some ev.ts)], .failed)

/-- The body of the `try` block after the folder name is known: lines
124-206.  Rejections send their templated reply and return; otherwise the
pipeline downloads to the fixed scratch path, sends "working on that...",
runs Ghostscript, uploads, and sends the final link, any raised exception
being routed to the `except` clauses. -/
def pipelineAfterFolder (ev : SlackEvent) (env : Env) (acts : List Act)
    (folderName : Str) : List Act × Outcome :=
  match resolve_source ev with
  | .error .tooMany =>
    match env.sayTooManyErr with
    | some e => exceptClauses ev env acts e
    | none => (acts ++ [.say .tooMany none], .failed)
  | .error .unsupported =>
    match env.sayUnsupportedErr with
    | some e => exceptClauses ev env acts e
    | none => (acts ++ [.say .unsupported (some ev.ts)], .failed)
  | .error .wrongLink =>
    match env.sayWrongLinkErr with
    | some e => exceptClauses ev env acts e
    | none => (acts ++ [.say .wrongLink (some ev.ts)], .failed)
  | .ok (fileUrl, originalFilename) =>
    let optimizedName := optimized_name originalFilename
    let req := downloadRequest fileUrl
    let acts1 := acts ++ [.download req.1 req.2 ("/tmp/original.pdf".data)]
    match env.downloadErr with
    | some e => exceptClauses ev env acts1 e
    | none =>
      match env.sayWorkingErr with
      | some e => exceptClauses ev env acts1 e
      | none =>
        let acts2 := acts1 ++ [.say .working (some ev.ts)]
        let acts3 := acts2 ++ [.optimize ("/tmp/original.pdf".data) ("/tmp/original_cmp.pdf".data)]
        match env.optimizeErr with
        | some e => exceptClauses ev env acts3 e
        | none =>
          let acts4 := acts3 ++ [.upload ("/tmp/original_cmp.pdf".data) optimizedName folderName]
          match env.uploadResult with
          | .error e => exceptClauses ev env acts4 e
          | .ok link =>
            match env.saySuccessErr with
            | some e => exceptClauses ev env acts4 e
            | none => (acts4 ++ [.say (.success link) (some ev.ts)], .done)

/-- `handle_mentions` of `src/app.py` (lines 107-249): resolve the folder
name from the channel kind (DM channels, ids starting with `"D"`, use the
user's name via `users_info`; others the channel name via
`conversations_info`), then run the pipeline; every exception raised in the
`try` block is routed to the `except` clauses. -/
def handle_mentions (ev : SlackEvent) (env : Env) : List Act × Outcome :=
  if leadsWith ("D".data) ev.channel then
    match env.usersInfoErr with
    | some e => exceptClauses ev env [.usersInfo ev.user] e
    | none => pipelineAfterFolder ev env [.usersInfo ev.user] env.userName
  else
    match env.convInfoErr with
    | some e => exceptClauses ev env [.convInfo ev.channel] e
    | none => pipelineAfterFolder ev env [.convInfo ev.channel] env.channelName

/-- An environment in which every external call succeeds. -/
def okEnv : Env :=
  { userName := "alice".data
    channelName := "plans".data
    usersInfoErr := none
    convInfoErr := none
    downloadErr := none
    optimizeErr := none
    uploadResult := .ok ("https://drive.google.com/file/d/abc123/view".data)
    sayTooManyErr := none
    sayUnsupportedErr := none
    sayWrongLinkErr := none
    sayWorkingErr := none
    saySuccessErr := none
    saySlackRawErr := none
    sayUnexpectedRawErr := none
    sayGenericErr := none }

/-- All eight reply deliveries of a run succeed. -/
def saysOk (env : Env) : Prop :=
  env.sayTooManyErr = none ∧ env.sayUnsupportedErr = none ∧ env.sayWrongLinkErr = none
  ∧ env.sayWorkingErr = none ∧ env.saySuccessErr = none ∧ env.saySlackRawErr = none
  ∧ env.sayUnexpectedRawErr = none ∧ env.sayGenericErr = none

/-- The threading discipline actually present in the source: every reply
carries `thread_ts=event["ts"]` except the "too many attachments"
rejection and the two raw error-text replies of the `except` clauses,
which are sent without a `thread_ts`. -/
def sayThreadOk (ev : SlackEvent) (m : Msg) (th : Option Str) : Prop :=
  th = some ev.ts
  ∨ (th = none ∧ (m = .tooMany ∨ (∃ s, m = .slackRaw s) ∨ (∃ s, m = .unexpectedRaw s)))

/-- Classifier: the templated "uh oh... we have a problem" reply. -/
def isGenericSay : Act → Bool
  | .say .genericProblem _ => true
  | _ => false

/-- Classifier: a raw error-text reply of an `except` clause. -/
def isRawSay : Act → Bool
  | .say (.slackRaw _) _ => true
  | .say (.unexpectedRaw _) _ => true
  | _ => false

/-- Classifier: one of the three input-rejection replies. -/
def isRejectionSay : Act → Bool
  | .say .tooMany _ => true
  | .say .unsupported _ => true
  | .say .wrongLink _ => true
  | _ => false

/-- Classifier: the "working on that..." acknowledgement. -/
def isWorkingSay : Act → Bool
  | .say .working _ => true
  | _ => false

/-- Classifier: the download request of the Acquirer. -/
def isDownloadAct : Act → Bool
  | .download _ _ _ => true
  | _ => false

example : extract_url ("see https://h/f.pdf now".data) = some ("https://h/f.pdf".data) := by decide
example : extract_url ("xhttp://h/a.pdf".data) = some ("http://h/a.pdf".data) := by decide
example : specTokenUrl ("xhttp://h/a.pdf".data) = none := by decide
example : is_pdf_url ("https://h/a.PDF?x=1".data) = true := by decide
example : is_pdf_url ("http://a.pdf".data) = false := by decide
example : urlPath ("https://h/a;b.pdf".data) = ("/a".data) := by decide
example : is_pdf_url ("https://h/a;b.pdf".data) = false := by decide
example : urlPath ("https://h/x.pdf;y".data) = ("/x.pdf".data) := by decide
example : is_pdf_url ("https://h/x.pdf;y".data) = true := by decide
example : urlPath ("https://h/a;b/c.pdf".data) = ("/a;b/c.pdf".data) := by decide
example : is_pdf_url ("https://h/a.pdf?x=;y".data) = true := by decide
example : splitLastSeg ("https://h/a.pdf?x=1".data) = ("a.pdf?x=1".data) := by decide
example : optimized_name ("a.pdf.pdf".data) = ("a_cmp.pdf".data) := by decide
example : dropboxRewrite ("https://www.dropbox.com/s/abc/file.pdf?dl=0".data)
    = ("https://dl.dropboxusercontent.com/s/abc/file.pdf?dl=0".data) := by decide
example : (downloadRequest ("https://evil.com/a.pdf?x=slack.com".data)).2 = true := by decide

example :
    handle_mentions
      { channel := "C1".data, user := "U1".data, ts := "11.22".data, files := [],
        text := "see https://h/f.pdf".data } okEnv
    = ([Act.convInfo ("C1".data),
        Act.download ("https://h/f.pdf".data) false ("/tmp/original.pdf".data),
        Act.say .working (some ("11.22".data)),
        Act.optimize ("/tmp/original.pdf".data) ("/tmp/original_cmp.pdf".data),
        Act.upload ("/tmp/original_cmp.pdf".data) ("f_cmp.pdf".data) ("plans".data),
        Act.say (.success ("https://drive.google.com/file/d/abc123/view".data))
          (some ("11.22".data))],
       Outcome.done) := by decide

/-! ## Helper lemmas on the string primitives -/

theorem leadsWith_iff (p l : Str) : leadsWith p l = true ↔ ∃ t, l = p ++ t := by
  induction p generalizing l with
  | nil => simp [leadsWith]
  | cons x xs ih =>
    cases l with
    | nil => simp [leadsWith]
    | cons c cs =>
      simp only [leadsWith, Bool.and_eq_true, beq_iff_eq, ih, List.cons_append,
        List.cons.injEq]
      constructor
      · rintro ⟨hx, t, ht⟩
        exact ⟨t, hx.symm, ht⟩
      · rintro ⟨t, hc, ht⟩
        exact ⟨hc.symm, t, ht⟩

theorem listContains_iff (pat l : Str) :
    listContains pat l = true ↔ ∃ a b, l = a ++ pat ++ b := by
  induction l with
  | nil =>
    simp only [listContains, List.isEmpty_iff]
    constructor
    · intro h
      exact ⟨[], [], by simp [h]⟩
    · rintro ⟨a, b, h⟩
      rcases List.append_eq_nil.mp ((List.append_eq_nil.mp h.symm).1) with ⟨_, hp⟩
      exact hp
  | cons c cs ih =>
    simp only [listContains, Bool.or_eq_true, leadsWith_iff, ih]
    constructor
    · rintro (⟨t, ht⟩ | ⟨a, b, h⟩)
      · exact ⟨[], t, by simp [ht]⟩
      · exact ⟨c :: a, b, by simp [h]⟩
    · rintro ⟨a, b, h⟩
      cases a with
      | nil => exact Or.inl ⟨b, by simpa using h⟩
      | cons a0 as =>
        right
        rcases List.cons.injEq .. ▸ h with ⟨_, h2⟩
        exact ⟨as, b, by simpa using h2⟩

theorem pdfData : (".pdf".data) = ['.', 'p', 'd', 'f'] := rfl

theorem pyRep_eq_delete (n : Nat) (s : Str) :
    pyRepFuel (".pdf".data) [] n s = deletePdfFuel n s := by
  induction n generalizing s with
  | zero => rfl
  | succ n ih =>
    cases s with
    | nil => rfl
    | cons c rest =>
      by_cases h : leadsWith (".pdf".data) (c :: rest) = true
      · simp [pyRepFuel, deletePdfFuel, h, ih, pdfData]
      · simp [pyRepFuel, deletePdfFuel, h, ih]

/-! ## Claim C1 (bearer credential attachment) -/

/-- Claim C1, counterexample: the code attaches the bot's bearer token to a
request for a third-party URL whose host is `evil.com` and which merely
contains `slack.com` in its query, whereas the claim demands such a GET be
issued unauthenticated. -/
theorem c1_counterexample :
    (downloadRequest ("https://evil.com/a.pdf?x=slack.com".data)).2 = true
    ∧ urlHost ("https://evil.com/a.pdf?x=slack.com".data) = ("evil.com".data) := by
  decide

/-- Claim C1 as amended: the bearer credential is attached if and only if
the string `slack.com` occurs as a substring anywhere in the effective
(Dropbox-rewritten) URL — host, path or query alike. -/
theorem c1_amended (url : Str) :
    (downloadRequest url).2 = true
    ↔ ∃ a b, (downloadRequest url).1 = a ++ ("slack.com".data) ++ b := by
  simp only [downloadRequest]
  exact listContains_iff _ _

/-! ## Claim C7 (Dropbox rewrite) -/

/-- Claim C7: on the canonical consumer-sharing URL the code rewrites the
host but leaves the query as `dl=0`, because the source's replacement
target is the misspelled `?d1=0` (digit one); the direct-download form
`dl=1` is never produced. -/
theorem c7_bug :
    dropboxRewrite ("https://www.dropbox.com/s/abc/file.pdf?dl=0".data)
      = ("https://dl.dropboxusercontent.com/s/abc/file.pdf?dl=0".data)
    ∧ listContains ("dl=1".data)
        (dropboxRewrite ("https://www.dropbox.com/s/abc/file.pdf?dl=0".data)) = false := by
  decide

/-! ## Claim C8 (idempotent folder resolution) -/

/-- Claim C8: folder resolution creates a folder exactly when no non-trashed
folder of that exact name exists (in which case the Drive is left
unchanged), and a second sequential resolution for the same name performs
zero create calls and returns the same folder identity. -/
theorem c8_theorem (name : Str) (d : Drive) :
    (((upload_to_drive_folder name d).2.2 = 0)
      ↔ ∃ f ∈ d.folders, f.fname = name ∧ f.trashed = false)
    ∧ ((upload_to_drive_folder name d).2.2 = 0 → (upload_to_drive_folder name d).2.1 = d)
    ∧ (upload_to_drive_folder name (upload_to_drive_folder name d).2.1).2.2 = 0
    ∧ (upload_to_drive_folder name (upload_to_drive_folder name d).2.1).1
        = (upload_to_drive_folder name d).1 := by
  cases h : d.folders.find? (folderQuery name) with
  | some f =>
    have hm := List.mem_of_find?_eq_some h
    have hp := List.find?_some h
    simp only [folderQuery, Bool.and_eq_true, beq_iff_eq] at hp
    refine ⟨?_, ?_, ?_, ?_⟩
    · have hc : (upload_to_drive_folder name d).2.2 = 0 := by
        simp [upload_to_drive_folder, h]
      exact iff_of_true hc ⟨f, hm, hp.1, hp.2⟩
    · simp [upload_to_drive_folder, h]
    · simp [upload_to_drive_folder, h]
    · simp [upload_to_drive_folder, h]
  | none =>
    have hn := List.find?_eq_none.mp h
    have h2 : ((d.folders ++ [⟨d.nextId, name, false⟩] : List DriveFolder).find?
        (folderQuery name)) = some ⟨d.nextId, name, false⟩ := by
      rw [List.find?_append, h]
      simp [folderQuery]
    refine ⟨?_, ?_, ?_, ?_⟩
    · simp only [upload_to_drive_folder, h]
      refine iff_of_false (by simp) ?_
      rintro ⟨f, hf, h1, ht⟩
      have hq := hn f hf
      simp [folderQuery, h1, ht] at hq
    · simp [upload_to_drive_folder, h]
    · simp [upload_to_drive_folder, h, h2]
    · simp [upload_to_drive_folder, h, h2]

/-- Closed instance of `c8_theorem`: with a matching folder already present
the implication's hypothesis holds and resolution leaves the Drive
unchanged. -/
theorem c8_witness :
    (upload_to_drive_folder ("plans".data)
      { folders := [⟨7, "plans".data, false⟩], nextId := 8 }).2.1
    = { folders := [⟨7, "plans".data, false⟩], nextId := 8 } :=
  (c8_theorem ("plans".data) { folders := [⟨7, "plans".data, false⟩], nextId := 8 }).2.1
    (by decide)

/-! ## Claim C10 (published artifact name) -/

/-- Claim C10: the published name equals the display name with every
occurrence of `.pdf` deleted (leftmost first), with `_cmp.pdf` appended —
the `str.replace`-based source computation agrees with the delete-all
description for every display filename. -/
theorem c10_theorem (name : Str) : optimized_name name = specOptimizedName name := by
  unfold optimized_name specOptimizedName pyReplace
  rw [pyRep_eq_delete]

example : optimized_name ("a.pdf?x=1".data) = ("a?x=1_cmp.pdf".data) := by decide
example : optimized_name ("r.pdf.final.pdf".data) = ("r.final_cmp.pdf".data) := by decide

/-! ## Claim C5 (URL selection and rejection) -/

theorem extract_url_eq_specFirstUrl (l : Str) : extract_url l = specFirstUrl l := by
  show findUrl l = specFirstUrl l
  induction l with
  | nil => rfl
  | cons c rest ih =>
    by_cases h : matchStartB (c :: rest) = true
    · unfold specFirstUrl
      rw [List.length_cons, List.range_succ_eq_map,
        List.find?_cons_of_pos _ (by simpa using h)]
      simp [findUrl, h]
    · have hm : matchStartB (c :: rest) = false := by simpa using h
      unfold specFirstUrl
      rw [List.length_cons, List.range_succ_eq_map,
        List.find?_cons_of_neg _ (by simp [hm]), List.find?_map, Option.map_map]
      have hq : ((fun i => matchStartB ((c :: rest).drop i)) ∘ Nat.succ)
          = (fun i => matchStartB (rest.drop i)) := by
        funext i
        simp [Function.comp]
      have hg : ((fun i => ((c :: rest).drop i).takeWhile (fun ch => !isSpace ch)) ∘ Nat.succ)
          = (fun i => (rest.drop i).takeWhile (fun ch => !isSpace ch)) := by
        funext i
        simp [Function.comp]
      rw [hq, hg]
      unfold specFirstUrl at ih
      simpa [findUrl, hm] using ih

/-- Claim C5, counterexample: in the text `xhttp://h/a.pdf` no maximal
non-whitespace substring starts with `http://` or `https://` (the only
token starts with `x`), so the claim demands rejection with "no usable
link"; the code's regex nevertheless matches mid-token and the resolver
accepts the request. -/
theorem c5_counterexample :
    specTokenUrl ("xhttp://h/a.pdf".data) = none
    ∧ resolve_source
        { channel := "C1".data, user := "U1".data, ts := "1.2".data, files := [],
          text := "xhttp://h/a.pdf".data }
      = .ok ("http://h/a.pdf".data, "a.pdf".data) := by
  decide

/-- Claim C5 as amended: the resolver selects the substring beginning at
the first position of the text where `http://` or `https://` occurs
(followed by a non-whitespace character), extended through the following
non-whitespace run, taken verbatim; and an attachment-free request is
rejected with "no usable link" exactly when no such match exists or the
selected URL's path does not end in a case-insensitive `.pdf` suffix. -/
theorem c5_amended :
    (∀ text : Str, extract_url text = specFirstUrl text)
    ∧ (∀ ev : SlackEvent, ev.files = [] →
        (resolve_source ev = .error .wrongLink
          ↔ ∀ u, extract_url ev.text = some u → is_pdf_url u = false)) := by
  refine ⟨extract_url_eq_specFirstUrl, ?_⟩
  intro ev hf
  simp only [resolve_source, hf]
  cases h : extract_url ev.text with
  | none => simp
  | some u =>
    by_cases hp : is_pdf_url u = true
    · simp [hp]
    · simp only [Bool.not_eq_true] at hp
      simp [hp]

/-- Closed instance of `c5_amended` at a concrete attachment-free event
whose text holds no URL. -/
theorem c5_witness :
    extract_url ("no link here".data) = specFirstUrl ("no link here".data)
    ∧ (resolve_source
        { channel := "C2".data, user := "U2".data, ts := "3.4".data, files := [],
          text := "no link here".data }
      = .error .wrongLink
      ↔ ∀ u, extract_url ("no link here".data) = some u → is_pdf_url u = false) :=
  ⟨c5_amended.1 ("no link here".data),
   c5_amended.2
     { channel := "C2".data, user := "U2".data, ts := "3.4".data, files := [],
       text := "no link here".data } rfl⟩


/-! ## Claim C6 (display filename derivation) -/

theorem pySplit_ne_nil (sep : Char) (l : Str) : pySplit sep l ≠ [] := by
  cases l with
  | nil => simp [pySplit]
  | cons c rest =>
    simp only [pySplit]
    split
    · simp
    · split <;> simp

theorem takeWhile_append_end (p : Char → Bool) (xs : Str) (y : Char) (hy : p y = false) :
    (xs ++ [y]).takeWhile p = xs.takeWhile p := by
  induction xs with
  | nil => simp [hy]
  | cons x xs ih =>
    by_cases hx : p x
    · simp [hx, ih]
    · simp [hx]

theorem takeWhile_append_stop (p : Char → Bool) (xs ys : Str)
    (hex : ∃ x ∈ xs, p x = false) :
    (xs ++ ys).takeWhile p = xs.takeWhile p := by
  induction xs with
  | nil => simp at hex
  | cons x xs ih =>
    by_cases hx : p x
    · obtain ⟨z, hz, hpz⟩ := hex
      have hzxs : z ∈ xs := by
        rcases List.mem_cons.mp hz with rfl | h
        · rw [hx] at hpz
          cases hpz
        · exact h
      simp [hx, ih ⟨z, hzxs, hpz⟩]
    · simp [hx]

theorem pySplit_single (sep : Char) (l h : Str) (hs : pySplit sep l = [h]) :
    h = l ∧ sep ∉ l := by
  induction l generalizing h with
  | nil =>
    simp only [pySplit, List.cons.injEq, and_true] at hs
    simp [← hs]
  | cons c rest ih =>
    cases hps : pySplit sep rest with
    | nil => exact absurd hps (pySplit_ne_nil sep rest)
    | cons h' t' =>
      simp only [pySplit, hps] at hs
      by_cases hc : c == sep
      · rw [if_pos hc] at hs
        simp at hs
      · rw [if_neg hc] at hs
        simp only [List.cons.injEq] at hs
        obtain ⟨rfl, rfl⟩ := hs
        obtain ⟨rfl, hmem⟩ := ih h' hps
        refine ⟨rfl, ?_⟩
        simp only [List.mem_cons, not_or]
        exact ⟨fun he => by simp [he] at hc, hmem⟩

theorem pySplit_mem (sep : Char) (l : Str) :
    ∀ h t, pySplit sep l = h :: t → t ≠ [] → sep ∈ l := by
  induction l with
  | nil =>
    intro h t hs ht
    simp only [pySplit, List.cons.injEq] at hs
    exact absurd hs.2.symm ht
  | cons c rest ih =>
    intro h t hs ht
    by_cases hc : c == sep
    · have hcs : c = sep := by simpa using hc
      simp [hcs]
    · cases hps : pySplit sep rest with
      | nil => exact absurd hps (pySplit_ne_nil sep rest)
      | cons h' t' =>
        simp only [pySplit, hps] at hs
        rw [if_neg hc] at hs
        simp only [List.cons.injEq] at hs
        obtain ⟨rfl, rfl⟩ := hs
        exact List.mem_cons_of_mem c (ih h' t' hps ht)

theorem splitLastSeg_eq_afterLastSlash (l : Str) : splitLastSeg l = afterLastSlash l := by
  unfold splitLastSeg afterLastSlash
  induction l with
  | nil => rfl
  | cons c rest ih =>
    have hrev : (c :: rest).reverse = rest.reverse ++ [c] := by simp
    by_cases hc : c == '/'
    · have hcs : c = '/' := by simpa using hc
      cases hps : pySplit '/' rest with
      | nil => exact absurd hps (pySplit_ne_nil '/' rest)
      | cons h t =>
        have hL : pySplit '/' (c :: rest) = [] :: h :: t := by
          simp only [pySplit, hps, if_pos hc]
        rw [hL, hrev, takeWhile_append_end _ _ _ (by simp [hcs])]
        rw [hps] at ih
        simp only [List.getLastD_cons] at ih ⊢
        exact ih
    · cases hps : pySplit '/' rest with
      | nil => exact absurd hps (pySplit_ne_nil '/' rest)
      | cons h t =>
        have hL : pySplit '/' (c :: rest) = (c :: h) :: t := by
          simp only [pySplit, hps, if_neg hc]
        rw [hL]
        cases t with
        | nil =>
          obtain ⟨heq, hmem⟩ := pySplit_single '/' rest h hps
          have hall : ∀ x ∈ rest.reverse ++ [c], (fun ch => !(ch == '/')) x = true := by
            intro x hx
            rcases List.mem_append.mp hx with hx | hx
            · have hxr : x ∈ rest := List.mem_reverse.mp hx
              simp only [Bool.not_eq_eq_eq_not, Bool.not_true, beq_eq_false_iff_ne]
              exact fun he => hmem (he ▸ hxr)
            · simp only [List.mem_singleton] at hx
              subst hx
              simpa using hc
          rw [hrev, List.takeWhile_eq_self_iff.mpr hall]
          simp [heq]
        | cons t0 ts =>
          have hm : ('/' : Char) ∈ rest := pySplit_mem '/' rest h (t0 :: ts) hps (by simp)
          rw [hrev, takeWhile_append_stop _ _ _ ⟨'/', List.mem_reverse.mpr hm, by simp⟩]
          rw [hps] at ih
          simp only [List.getLastD_cons] at ih ⊢
          exact ih

/-- Claim C6, counterexample: for the text URL `https://h/a.pdf?x=1` the
resolver keeps the query string in the display filename
(`url.split("/")[-1]` is `a.pdf?x=1`), whereas the claim demands the final
path segment with the query string excluded (`a.pdf`). -/
theorem c6_counterexample :
    resolve_source
      { channel := "C1".data, user := "U1".data, ts := "1.2".data, files := [],
        text := "https://h/a.pdf?x=1".data }
      = .ok ("https://h/a.pdf?x=1".data, "a.pdf?x=1".data)
    ∧ specUrlFilename ("https://h/a.pdf?x=1".data) = ("a.pdf".data)
    ∧ ("a.pdf?x=1".data : Str) ≠ ("a.pdf".data) := by
  decide

/-- Claim C6 as amended: the display filename is the attachment's declared
name for an attachment source, and for a URL source it is everything after
the last slash of the full URL — query string included — which is what
`url.split("/")[-1]` computes. -/
theorem c6_amended :
    (∀ l : Str, splitLastSeg l = afterLastSlash l)
    ∧ (∀ (ev : SlackEvent) (fi : SlackFile), ev.files = [fi] →
        fi.filetype = ("pdf".data) →
        resolve_source ev = .ok (fi.url_private_download, fi.name))
    ∧ (∀ (ev : SlackEvent) (u : Str), ev.files = [] → extract_url ev.text = some u →
        is_pdf_url u = true → resolve_source ev = .ok (u, afterLastSlash u)) := by
  refine ⟨splitLastSeg_eq_afterLastSlash, ?_, ?_⟩
  · intro ev fi hf hft
    simp [resolve_source, hf, hft]
  · intro ev u hf hu hp
    rw [← splitLastSeg_eq_afterLastSlash u]
    simp [resolve_source, hf, hu, hp]

/-- Closed instance of `c6_amended` at concrete attachment and URL
events. -/
theorem c6_witness :
    resolve_source
      { channel := "C1".data, user := "U1".data, ts := "1.2".data,
        files := [{ filetype := "pdf".data, name := "plan.pdf".data,
                    url_private_download := "https://files.slack.com/x/plan.pdf".data }],
        text := "".data }
      = .ok ("https://files.slack.com/x/plan.pdf".data, "plan.pdf".data)
    ∧ resolve_source
        { channel := "C1".data, user := "U1".data, ts := "1.2".data, files := [],
          text := "https://h/a.pdf?x=1".data }
      = .ok ("https://h/a.pdf?x=1".data, afterLastSlash ("https://h/a.pdf?x=1".data)) :=
  ⟨c6_amended.2.1
    { channel := "C1".data, user := "U1".data, ts := "1.2".data,
      files := [{ filetype := "pdf".data, name := "plan.pdf".data,
                  url_private_download := "https://files.slack.com/x/plan.pdf".data }],
      text := "".data }
    { filetype := "pdf".data, name := "plan.pdf".data,
      url_private_download := "https://files.slack.com/x/plan.pdf".data } rfl rfl,
   c6_amended.2.2
    { channel := "C1".data, user := "U1".data, ts := "1.2".data, files := [],
      text := "https://h/a.pdf?x=1".data }
    ("https://h/a.pdf?x=1".data) rfl (by decide) (by decide)⟩

/-! ## Lemmas about the `except` clauses -/

theorem exceptClauses_ok (ev : SlackEvent) (env : Env) (acts : List Act) (e : Exc)
    (h1 : env.saySlackRawErr = none) (h2 : env.sayUnexpectedRawErr = none)
    (h3 : env.sayGenericErr = none) :
    exceptClauses ev env acts e
      = (acts ++ [.say (rawMsgOf e) none, .say .genericProblem (some ev.ts)], .failed) := by
  cases e <;> simp [exceptClauses, h1, h2, h3, rawMsgOf]

theorem exceptClauses_outcome (ev : SlackEvent) (env : Env) (acts : List Act) (e : Exc) :
    (exceptClauses ev env acts e).2 = .failed
    ∨ ∃ e1, (exceptClauses ev env acts e).2 = .crashed e1 := by
  unfold exceptClauses
  cases e with
  | slackApi s =>
    rcases h1 : env.saySlackRawErr with _ | e1
    · rcases h3 : env.sayGenericErr with _ | e2
      · exact Or.inl rfl
      · exact Or.inr ⟨e2, rfl⟩
    · exact Or.inr ⟨e1, rfl⟩
  | other s =>
    rcases h2 : env.sayUnexpectedRawErr with _ | e1
    · rcases h3 : env.sayGenericErr with _ | e2
      · exact Or.inl rfl
      · exact Or.inr ⟨e2, rfl⟩
    · exact Or.inr ⟨e1, rfl⟩

theorem exceptClauses_say_thread (ev : SlackEvent) (env : Env) (acts : List Act) (e : Exc)
    (hacts : ∀ m th, Act.say m th ∈ acts → sayThreadOk ev m th)
    (m : Msg) (th : Option Str)
    (ha : Act.say m th ∈ (exceptClauses ev env acts e).1) : sayThreadOk ev m th := by
  have hraw : ∀ s, (rawMsgOf e = Msg.slackRaw s ∨ rawMsgOf e = Msg.unexpectedRaw s) →
      sayThreadOk ev (rawMsgOf e) none := by
    intro s hs
    rcases hs with hs | hs <;> exact Or.inr ⟨rfl, by rw [hs]; simp⟩
  unfold exceptClauses at ha
  cases e with
  | slackApi s =>
    rcases h1 : env.saySlackRawErr with _ | e1 <;> rw [h1] at ha
    · rcases h3 : env.sayGenericErr with _ | e2 <;> rw [h3] at ha
      · simp only [List.mem_append, List.mem_singleton] at ha
        rcases ha with (h | h) | h
        · exact hacts m th h
        · simp only [Act.say.injEq] at h
          rw [h.1, h.2]
          exact hraw s (Or.inl rfl)
        · simp only [Act.say.injEq] at h
          rw [h.2]
          exact Or.inl rfl
      · simp only [List.mem_append, List.mem_singleton] at ha
        rcases ha with h | h
        · exact hacts m th h
        · simp only [Act.say.injEq] at h
          rw [h.1, h.2]
          exact hraw s (Or.inl rfl)
    · exact hacts m th ha
  | other s =>
    rcases h2 : env.sayUnexpectedRawErr with _ | e1 <;> rw [h2] at ha
    · rcases h3 : env.sayGenericErr with _ | e2 <;> rw [h3] at ha
      · simp only [List.mem_append, List.mem_singleton] at ha
        rcases ha with (h | h) | h
        · exact hacts m th h
        · simp only [Act.say.injEq] at h
          rw [h.1, h.2]
          exact hraw s (Or.inr rfl)
        · simp only [Act.say.injEq] at h
          rw [h.2]
          exact Or.inl rfl
      · simp only [List.mem_append, List.mem_singleton] at ha
        rcases ha with h | h
        · exact hacts m th h
        · simp only [Act.say.injEq] at h
          rw [h.1, h.2]
          exact hraw s (Or.inr rfl)
    · exact hacts m th ha

/-! ## Claim C9 (reply threading) -/

theorem says_extend (ev : SlackEvent) (L extra : List Act)
    (hL : ∀ m th, Act.say m th ∈ L → sayThreadOk ev m th)
    (hextra : ∀ m th, Act.say m th ∈ extra → sayThreadOk ev m th) :
    ∀ m th, Act.say m th ∈ L ++ extra → sayThreadOk ev m th := by
  intro m th hm
  rcases List.mem_append.mp hm with h | h
  · exact hL m th h
  · exact hextra m th h

theorem pipeline_say_thread (ev : SlackEvent) (env : Env) (acts : List Act)
    (folderName : Str)
    (hacts : ∀ m th, Act.say m th ∈ acts → sayThreadOk ev m th)
    (m : Msg) (th : Option Str)
    (ha : Act.say m th ∈ (pipelineAfterFolder ev env acts folderName).1) :
    sayThreadOk ev m th := by
  unfold pipelineAfterFolder at ha
  cases hr : resolve_source ev with
  | error r =>
    cases r with
    | tooMany =>
      simp only [hr] at ha
      rcases hs : env.sayTooManyErr with _ | e <;> simp only [hs] at ha
      · refine says_extend ev acts _ hacts ?_ m th ha
        intro m' th' h
        simp only [List.mem_singleton, Act.say.injEq] at h
        exact Or.inr ⟨h.2, Or.inl h.1⟩
      · exact exceptClauses_say_thread ev env acts e hacts m th ha
    | unsupported =>
      simp only [hr] at ha
      rcases hs : env.sayUnsupportedErr with _ | e <;> simp only [hs] at ha
      · refine says_extend ev acts _ hacts ?_ m th ha
        intro m' th' h
        simp only [List.mem_singleton, Act.say.injEq] at h
        exact Or.inl h.2
      · exact exceptClauses_say_thread ev env acts e hacts m th ha
    | wrongLink =>
      simp only [hr] at ha
      rcases hs : env.sayWrongLinkErr with _ | e <;> simp only [hs] at ha
      · refine says_extend ev acts _ hacts ?_ m th ha
        intro m' th' h
        simp only [List.mem_singleton, Act.say.injEq] at h
        exact Or.inl h.2
      · exact exceptClauses_say_thread ev env acts e hacts m th ha
  | ok p =>
    obtain ⟨fileUrl, originalFilename⟩ := p
    simp only [hr] at ha
    have h1 : ∀ m' th', Act.say m' th'
        ∈ acts ++ [Act.download (downloadRequest fileUrl).1 (downloadRequest fileUrl).2
            ("/tmp/original.pdf".data)] → sayThreadOk ev m' th' := by
      refine says_extend ev acts _ hacts ?_
      intro m' th' h
      simp at h
    rcases hd : env.downloadErr with _ | e <;> simp only [hd] at ha
    · rcases hw : env.sayWorkingErr with _ | e <;> simp only [hw] at ha
      · have h2 := says_extend ev _ [Act.say .working (some ev.ts)] h1
          (by intro m' th' h; simp only [List.mem_singleton, Act.say.injEq] at h; exact Or.inl h.2)
        have h3 := says_extend ev _
          [Act.optimize ("/tmp/original.pdf".data) ("/tmp/original_cmp.pdf".data)] h2
          (by intro m' th' h; simp at h)
        rcases ho : env.optimizeErr with _ | e <;> simp only [ho] at ha
        · have h4 := says_extend ev _
            [Act.upload ("/tmp/original_cmp.pdf".data) (optimized_name originalFilename)
              folderName] h3
            (by intro m' th' h; simp at h)
          rcases hu : env.uploadResult with e | link <;> simp only [hu] at ha
          · exact exceptClauses_say_thread ev env _ e h4 m th ha
          · rcases hsu : env.saySuccessErr with _ | e <;> simp only [hsu] at ha
            · refine says_extend ev _ [Act.say (.success link) (some ev.ts)] h4 ?_ m th ha
              intro m' th' h
              simp only [List.mem_singleton, Act.say.injEq] at h
              exact Or.inl h.2
            · exact exceptClauses_say_thread ev env _ e h4 m th ha
        · exact exceptClauses_say_thread ev env _ e h3 m th ha
      · exact exceptClauses_say_thread ev env _ e h1 m th ha
    · exact exceptClauses_say_thread ev env _ e h1 m th ha

/-- Claim C9, counterexample: the "too many attachments" rejection is
delivered by a plain `say(...)` with no `thread_ts`, so an outbound reply
exists that is not threaded to the originating message's timestamp. -/
theorem c9_counterexample :
    Act.say Msg.tooMany none
      ∈ (handle_mentions
          { channel := "C1".data, user := "U1".data, ts := "11.22".data,
            files := [{ filetype := "pdf".data, name := "a.pdf".data,
                        url_private_download := "https://files.slack.com/a.pdf".data },
                      { filetype := "pdf".data, name := "b.pdf".data,
                        url_private_download := "https://files.slack.com/b.pdf".data }],
            text := "".data } okEnv).1
    ∧ (none : Option Str) ≠ some ("11.22".data) := by
  decide

/-- Claim C9 as amended: every outbound reply is threaded to the
originating message's timestamp except the "too many attachments"
rejection and the raw error-text replies of the two `except` clauses,
which are sent unthreaded. -/
theorem c9_amended (ev : SlackEvent) (env : Env) (m : Msg) (th : Option Str)
    (ha : Act.say m th ∈ (handle_mentions ev env).1) : sayThreadOk ev m th := by
  unfold handle_mentions at ha
  have hbase : ∀ (a : Act), ∀ m' th', Act.say m' th' ∈ [a] →
      (a = .usersInfo ev.user ∨ a = .convInfo ev.channel) → sayThreadOk ev m' th' := by
    intro a m' th' h hc
    rcases hc with rfl | rfl <;> simp at h
  by_cases hD : leadsWith ("D".data) ev.channel = true
  · rw [if_pos hD] at ha
    rcases hI : env.usersInfoErr with _ | e <;> simp only [hI] at ha
    · exact pipeline_say_thread ev env _ env.userName
        (fun m' th' h => hbase _ m' th' h (Or.inl rfl)) m th ha
    · exact exceptClauses_say_thread ev env _ e
        (fun m' th' h => hbase _ m' th' h (Or.inl rfl)) m th ha
  · rw [if_neg hD] at ha
    rcases hI : env.convInfoErr with _ | e <;> simp only [hI] at ha
    · exact pipeline_say_thread ev env _ env.channelName
        (fun m' th' h => hbase _ m' th' h (Or.inr rfl)) m th ha
    · exact exceptClauses_say_thread ev env _ e
        (fun m' th' h => hbase _ m' th' h (Or.inr rfl)) m th ha

/-- Closed instance of `c9_amended`: the "working on that..." reply of a
concrete successful run satisfies the threading discipline. -/
theorem c9_witness :
    sayThreadOk
      { channel := "C1".data, user := "U1".data, ts := "11.22".data, files := [],
        text := "see https://h/f.pdf".data } Msg.working (some ("11.22".data)) :=
  c9_amended
    { channel := "C1".data, user := "U1".data, ts := "11.22".data, files := [],
      text := "see https://h/f.pdf".data } okEnv Msg.working (some ("11.22".data))
    (by decide)

/-! ## Master lemmas for the controller's outcome and message counts -/

theorem isRawSay_rawMsg (e : Exc) (th : Option Str) :
    isRawSay (.say (rawMsgOf e) th) = true := by
  cases e <;> rfl

theorem isGenericSay_rawMsg (e : Exc) (th : Option Str) :
    isGenericSay (.say (rawMsgOf e) th) = false := by
  cases e <;> rfl

theorem isRejectionSay_rawMsg (e : Exc) (th : Option Str) :
    isRejectionSay (.say (rawMsgOf e) th) = false := by
  cases e <;> rfl

theorem pipeline_full (ev : SlackEvent) (env : Env) (acts : List Act) (folderName : Str)
    (h1 : env.saySlackRawErr = none) (h2 : env.sayUnexpectedRawErr = none)
    (h3 : env.sayGenericErr = none)
    (hrj : acts.countP isRejectionSay = 0) (hgn : acts.countP isGenericSay = 0)
    (hrw : acts.countP isRawSay = 0) :
    ((pipelineAfterFolder ev env acts folderName).2 = .done
      ∨ (pipelineAfterFolder ev env acts folderName).2 = .failed)
    ∧ ((pipelineAfterFolder ev env acts folderName).1.countP isRejectionSay = 0 →
        (pipelineAfterFolder ev env acts folderName).2 = .failed →
        (pipelineAfterFolder ev env acts folderName).1.countP isGenericSay = 1
        ∧ (pipelineAfterFolder ev env acts folderName).1.countP isRawSay = 1)
    ∧ ((pipelineAfterFolder ev env acts folderName).1.countP isRejectionSay ≠ 0 →
        (pipelineAfterFolder ev env acts folderName).1.countP isGenericSay = 0)
    ∧ ((pipelineAfterFolder ev env acts folderName).2 = .done →
        env.downloadErr = none ∧ env.optimizeErr = none ∧ env.sayWorkingErr = none
        ∧ env.saySuccessErr = none ∧ ∃ l, env.uploadResult = .ok l) := by
  have hE : ∀ (a : List Act) (e : Exc), exceptClauses ev env a e
      = (a ++ [.say (rawMsgOf e) none, .say .genericProblem (some ev.ts)], .failed) :=
    fun a e => exceptClauses_ok ev env a e h1 h2 h3
  unfold pipelineAfterFolder
  cases hr : resolve_source ev with
  | error r =>
    cases r with
    | tooMany =>
      rcases hs : env.sayTooManyErr with _ | e
      · simp [hE, hrj, hgn, hrw, List.countP_cons, List.countP_append,
          isRejectionSay, isGenericSay, isRawSay]
      · cases e <;> simp [hE, hrj, hgn, hrw, List.countP_cons, List.countP_append,
          isRejectionSay, isGenericSay, isRawSay, rawMsgOf]
    | unsupported =>
      rcases hs : env.sayUnsupportedErr with _ | e
      · simp [hE, hrj, hgn, hrw, List.countP_cons, List.countP_append,
          isRejectionSay, isGenericSay, isRawSay]
      · cases e <;> simp [hE, hrj, hgn, hrw, List.countP_cons, List.countP_append,
          isRejectionSay, isGenericSay, isRawSay, rawMsgOf]
    | wrongLink =>
      rcases hs : env.sayWrongLinkErr with _ | e
      · simp [hE, hrj, hgn, hrw, List.countP_cons, List.countP_append,
          isRejectionSay, isGenericSay, isRawSay]
      · cases e <;> simp [hE, hrj, hgn, hrw, List.countP_cons, List.countP_append,
          isRejectionSay, isGenericSay, isRawSay, rawMsgOf]
  | ok p =>
    obtain ⟨fileUrl, originalFilename⟩ := p
    rcases hd : env.downloadErr with _ | e
    · rcases hw : env.sayWorkingErr with _ | e
      · rcases ho : env.optimizeErr with _ | e
        · rcases hu : env.uploadResult with e | link
          · cases e <;> simp [hE, hrj, hgn, hrw, List.countP_cons, List.countP_append,
              isRejectionSay, isGenericSay, isRawSay, rawMsgOf, hu]
          · rcases hsu : env.saySuccessErr with _ | e
            · simp [hE, hrj, hgn, hrw, List.countP_cons, List.countP_append,
                isRejectionSay, isGenericSay, isRawSay, hu, hsu]
            · cases e <;> simp [hE, hrj, hgn, hrw, List.countP_cons, List.countP_append,
                isRejectionSay, isGenericSay, isRawSay, rawMsgOf, hu, hsu]
        · cases e <;> simp [hE, hrj, hgn, hrw, List.countP_cons, List.countP_append,
            isRejectionSay, isGenericSay, isRawSay, rawMsgOf]
      · cases e <;> simp [hE, hrj, hgn, hrw, List.countP_cons, List.countP_append,
          isRejectionSay, isGenericSay, isRawSay, rawMsgOf]
    · cases e <;> simp [hE, hrj, hgn, hrw, List.countP_cons, List.countP_append,
        isRejectionSay, isGenericSay, isRawSay, rawMsgOf]

theorem handle_master (ev : SlackEvent) (env : Env)
    (h1 : env.saySlackRawErr = none) (h2 : env.sayUnexpectedRawErr = none)
    (h3 : env.sayGenericErr = none) :
    ((handle_mentions ev env).2 = .done ∨ (handle_mentions ev env).2 = .failed)
    ∧ ((handle_mentions ev env).1.countP isRejectionSay = 0 →
        (handle_mentions ev env).2 = .failed →
        (handle_mentions ev env).1.countP isGenericSay = 1
        ∧ (handle_mentions ev env).1.countP isRawSay = 1)
    ∧ ((handle_mentions ev env).1.countP isRejectionSay ≠ 0 →
        (handle_mentions ev env).1.countP isGenericSay = 0)
    ∧ ((handle_mentions ev env).2 = .done →
        env.downloadErr = none ∧ env.optimizeErr = none ∧ env.sayWorkingErr = none
        ∧ env.saySuccessErr = none ∧ ∃ l, env.uploadResult = .ok l) := by
  have hE : ∀ (a : List Act) (e : Exc), exceptClauses ev env a e
      = (a ++ [.say (rawMsgOf e) none, .say .genericProblem (some ev.ts)], .failed) :=
    fun a e => exceptClauses_ok ev env a e h1 h2 h3
  unfold handle_mentions
  by_cases hD : leadsWith ("D".data) ev.channel = true
  · rw [if_pos hD]
    rcases hI : env.usersInfoErr with _ | e
    · exact pipeline_full ev env [.usersInfo ev.user] env.userName h1 h2 h3
        (by simp [List.countP_cons, isRejectionSay])
        (by simp [List.countP_cons, isGenericSay])
        (by simp [List.countP_cons, isRawSay])
    · cases e <;> simp [hE, List.countP_cons, List.countP_append,
        isRejectionSay, isGenericSay, isRawSay, rawMsgOf]
  · rw [if_neg hD]
    rcases hI : env.convInfoErr with _ | e
    · exact pipeline_full ev env [.convInfo ev.channel] env.channelName h1 h2 h3
        (by simp [List.countP_cons, isRejectionSay])
        (by simp [List.countP_cons, isGenericSay])
        (by simp [List.countP_cons, isRawSay])
    · cases e <;> simp [hE, List.countP_cons, List.countP_append,
        isRejectionSay, isGenericSay, isRawSay, rawMsgOf]

/-! ## Claim C2 (exception containment) -/

/-- Claim C2, counterexample: when the download raises and the raw
error-text reply of the `except Exception` clause itself raises a
`SlackApiError`, that exception escapes the handler's boundary, so not
every exception raised during reply delivery is caught inside the
handler. -/
theorem c2_counterexample :
    (handle_mentions
      { channel := "C1".data, user := "U1".data, ts := "1.2".data, files := [],
        text := "see https://h/f.pdf".data }
      { okEnv with downloadErr := some (.other ("boom".data)),
                   sayUnexpectedRawErr := some (.slackApi ("slack down".data)) }).2
    = .crashed (.slackApi ("slack down".data)) := by
  decide

/-- Claim C2 as amended: provided the failure-reply deliveries of the
`except` clauses succeed, every exception raised by a stage inside the
`try` block is caught and the run terminates `Failed` — never an escaped
exception — with exactly two failure messages: one raw error-text reply
and exactly one generic templated apology; and a run can only finish
`Done` when no stage raised.  An exception raised while delivering the
failure replies themselves escapes the handler (see the
counterexample). -/
theorem c2_amended (ev : SlackEvent) (env : Env)
    (h1 : env.saySlackRawErr = none) (h2 : env.sayUnexpectedRawErr = none)
    (h3 : env.sayGenericErr = none) :
    ((handle_mentions ev env).2 = .done ∨ (handle_mentions ev env).2 = .failed)
    ∧ ((handle_mentions ev env).1.countP isRejectionSay = 0 →
        (handle_mentions ev env).2 = .failed →
        (handle_mentions ev env).1.countP isGenericSay = 1
        ∧ (handle_mentions ev env).1.countP isRawSay = 1)
    ∧ ((handle_mentions ev env).2 = .done →
        env.downloadErr = none ∧ env.optimizeErr = none ∧ env.sayWorkingErr = none
        ∧ env.saySuccessErr = none ∧ ∃ l, env.uploadResult = .ok l) := by
  obtain ⟨ha, hb, _, hd⟩ := handle_master ev env h1 h2 h3
  exact ⟨ha, hb, hd⟩

/-- Closed instance of `c2_amended`: a failing download in an otherwise
healthy environment yields a `Failed` run with one generic apology and one
raw error reply. -/
theorem c2_witness :
    ((handle_mentions
        { channel := "C1".data, user := "U1".data, ts := "1.2".data, files := [],
          text := "see https://h/f.pdf".data }
        { okEnv with downloadErr := some (.other ("boom".data)) }).2 = .done
      ∨ (handle_mentions
        { channel := "C1".data, user := "U1".data, ts := "1.2".data, files := [],
          text := "see https://h/f.pdf".data }
        { okEnv with downloadErr := some (.other ("boom".data)) }).2 = .failed)
    ∧ ((handle_mentions
        { channel := "C1".data, user := "U1".data, ts := "1.2".data, files := [],
          text := "see https://h/f.pdf".data }
        { okEnv with downloadErr := some (.other ("boom".data)) }).1.countP
          isRejectionSay = 0 →
        (handle_mentions
          { channel := "C1".data, user := "U1".data, ts := "1.2".data, files := [],
            text := "see https://h/f.pdf".data }
          { okEnv with downloadErr := some (.other ("boom".data)) }).2 = .failed →
        (handle_mentions
          { channel := "C1".data, user := "U1".data, ts := "1.2".data, files := [],
            text := "see https://h/f.pdf".data }
          { okEnv with downloadErr := some (.other ("boom".data)) }).1.countP
            isGenericSay = 1
        ∧ (handle_mentions
          { channel := "C1".data, user := "U1".data, ts := "1.2".data, files := [],
            text := "see https://h/f.pdf".data }
          { okEnv with downloadErr := some (.other ("boom".data)) }).1.countP
            isRawSay = 1)
    ∧ ((handle_mentions
        { channel := "C1".data, user := "U1".data, ts := "1.2".data, files := [],
          text := "see https://h/f.pdf".data }
        { okEnv with downloadErr := some (.other ("boom".data)) }).2 = .done →
        ({ okEnv with downloadErr := some (.other ("boom".data)) } : Env).downloadErr = none
        ∧ ({ okEnv with downloadErr := some (.other ("boom".data)) } : Env).optimizeErr = none
        ∧ ({ okEnv with downloadErr := some (.other ("boom".data)) } : Env).sayWorkingErr = none
        ∧ ({ okEnv with downloadErr := some (.other ("boom".data)) } : Env).saySuccessErr = none
        ∧ ∃ l, ({ okEnv with downloadErr := some (.other ("boom".data)) } : Env).uploadResult
            = .ok l) :=
  c2_amended
    { channel := "C1".data, user := "U1".data, ts := "1.2".data, files := [],
      text := "see https://h/f.pdf".data }
    { okEnv with downloadErr := some (.other ("boom".data)) } rfl rfl rfl

/-! ## Claim C3 (generic acknowledgement on failure) -/

/-- Claim C3, counterexample: a run rejected for carrying two attachments
terminates `Failed` after sending only the "too many attachments" reply —
the generic "problem occurred" acknowledgement is never emitted. -/
theorem c3_counterexample :
    (handle_mentions
      { channel := "C1".data, user := "U1".data, ts := "1.2".data,
        files := [{ filetype := "pdf".data, name := "a.pdf".data,
                    url_private_download := "https://files.slack.com/a.pdf".data },
                  { filetype := "pdf".data, name := "b.pdf".data,
                    url_private_download := "https://files.slack.com/b.pdf".data }],
        text := "".data } okEnv).2 = .failed
    ∧ (handle_mentions
      { channel := "C1".data, user := "U1".data, ts := "1.2".data,
        files := [{ filetype := "pdf".data, name := "a.pdf".data,
                    url_private_download := "https://files.slack.com/a.pdf".data },
                  { filetype := "pdf".data, name := "b.pdf".data,
                    url_private_download := "https://files.slack.com/b.pdf".data }],
        text := "".data } okEnv).1.countP isGenericSay = 0
    ∧ Act.say Msg.tooMany none
      ∈ (handle_mentions
        { channel := "C1".data, user := "U1".data, ts := "1.2".data,
          files := [{ filetype := "pdf".data, name := "a.pdf".data,
                      url_private_download := "https://files.slack.com/a.pdf".data },
                    { filetype := "pdf".data, name := "b.pdf".data,
                      url_private_download := "https://files.slack.com/b.pdf".data }],
          text := "".data } okEnv).1 := by
  decide

/-- Claim C3 as amended: the generic "problem occurred" acknowledgement is
emitted (exactly once) only on runs that fail through a caught exception;
a run that fails through an input rejection emits its rejection-specific
reply and no generic acknowledgement at all. -/
theorem c3_amended (ev : SlackEvent) (env : Env)
    (h1 : env.saySlackRawErr = none) (h2 : env.sayUnexpectedRawErr = none)
    (h3 : env.sayGenericErr = none) :
    ((handle_mentions ev env).1.countP isRejectionSay ≠ 0 →
      (handle_mentions ev env).1.countP isGenericSay = 0)
    ∧ ((handle_mentions ev env).1.countP isRejectionSay = 0 →
        (handle_mentions ev env).2 = .failed →
        (handle_mentions ev env).1.countP isGenericSay = 1) := by
  obtain ⟨_, hb, hc, _⟩ := handle_master ev env h1 h2 h3
  exact ⟨hc, fun hr hf => (hb hr hf).1⟩

/-- Closed instance of `c3_amended` at the two-attachment rejection run. -/
theorem c3_witness :
    (handle_mentions
      { channel := "C1".data, user := "U1".data, ts := "1.2".data,
        files := [{ filetype := "pdf".data, name := "a.pdf".data,
                    url_private_download := "https://files.slack.com/a.pdf".data },
                  { filetype := "pdf".data, name := "b.pdf".data,
                    url_private_download := "https://files.slack.com/b.pdf".data }],
        text := "".data } okEnv).1.countP isGenericSay = 0 :=
  (c3_amended
    { channel := "C1".data, user := "U1".data, ts := "1.2".data,
      files := [{ filetype := "pdf".data, name := "a.pdf".data,
                  url_private_download := "https://files.slack.com/a.pdf".data },
                { filetype := "pdf".data, name := "b.pdf".data,
                  url_private_download := "https://files.slack.com/b.pdf".data }],
      text := "".data } okEnv rfl rfl rfl).1 (by decide)

/-! ## Claim C4 (acknowledgement/download order) -/

theorem pipeline_done (ev : SlackEvent) (env : Env) (acts : List Act) (folderName : Str)
    (hd : (pipelineAfterFolder ev env acts folderName).2 = .done) :
    ∃ fileUrl originalFilename link,
      resolve_source ev = .ok (fileUrl, originalFilename)
      ∧ (pipelineAfterFolder ev env acts folderName).1
        = acts
          ++ [Act.download (downloadRequest fileUrl).1 (downloadRequest fileUrl).2
                ("/tmp/original.pdf".data),
              Act.say .working (some ev.ts),
              Act.optimize ("/tmp/original.pdf".data) ("/tmp/original_cmp.pdf".data),
              Act.upload ("/tmp/original_cmp.pdf".data) (optimized_name originalFilename)
                folderName,
              Act.say (.success link) (some ev.ts)] := by
  unfold pipelineAfterFolder at hd ⊢
  cases hr : resolve_source ev with
  | error r =>
    cases r with
    | tooMany =>
      simp only [hr] at hd
      rcases hs : env.sayTooManyErr with _ | e <;> simp only [hs] at hd
      · exact absurd hd (by simp)
      · rcases exceptClauses_outcome ev env acts e with h | ⟨e1, h⟩ <;> rw [h] at hd <;>
          exact absurd hd (by simp)
    | unsupported =>
      simp only [hr] at hd
      rcases hs : env.sayUnsupportedErr with _ | e <;> simp only [hs] at hd
      · exact absurd hd (by simp)
      · rcases exceptClauses_outcome ev env acts e with h | ⟨e1, h⟩ <;> rw [h] at hd <;>
          exact absurd hd (by simp)
    | wrongLink =>
      simp only [hr] at hd
      rcases hs : env.sayWrongLinkErr with _ | e <;> simp only [hs] at hd
      · exact absurd hd (by simp)
      · rcases exceptClauses_outcome ev env acts e with h | ⟨e1, h⟩ <;> rw [h] at hd <;>
          exact absurd hd (by simp)
  | ok p =>
    obtain ⟨fileUrl, originalFilename⟩ := p
    simp only [hr] at hd ⊢
    rcases hdl : env.downloadErr with _ | e <;> simp only [hdl] at hd ⊢
    · rcases hw : env.sayWorkingErr with _ | e <;> simp only [hw] at hd ⊢
      · rcases ho : env.optimizeErr with _ | e <;> simp only [ho] at hd ⊢
        · rcases hu : env.uploadResult with e | link <;> simp only [hu] at hd ⊢
          · rcases exceptClauses_outcome ev env _ e with h | ⟨e1, h⟩ <;> rw [h] at hd <;>
              exact absurd hd (by simp)
          · rcases hsu : env.saySuccessErr with _ | e <;> simp only [hsu] at hd ⊢
            · exact ⟨fileUrl, originalFilename, link, rfl, by simp⟩
            · rcases exceptClauses_outcome ev env _ e with h | ⟨e1, h⟩ <;> rw [h] at hd <;>
                exact absurd hd (by simp)
        · rcases exceptClauses_outcome ev env _ e with h | ⟨e1, h⟩ <;> rw [h] at hd <;>
            exact absurd hd (by simp)
      · rcases exceptClauses_outcome ev env _ e with h | ⟨e1, h⟩ <;> rw [h] at hd <;>
          exact absurd hd (by simp)
    · rcases exceptClauses_outcome ev env _ e with h | ⟨e1, h⟩ <;> rw [h] at hd <;>
        exact absurd hd (by simp)

/-- Claim C4, counterexample: in a concrete successful run the download
action sits at index 1 of the trace and the "working on that..."
acknowledgement at index 2 — the source calls `download_file` first and
sends the acknowledgement only afterwards, so the acknowledgement does not
precede the download. -/
theorem c4_counterexample :
    (handle_mentions
      { channel := "C1".data, user := "U1".data, ts := "1.2".data, files := [],
        text := "see https://h/f.pdf".data } okEnv).2 = .done
    ∧ (handle_mentions
      { channel := "C1".data, user := "U1".data, ts := "1.2".data, files := [],
        text := "see https://h/f.pdf".data } okEnv).1.findIdx isDownloadAct = 1
    ∧ (handle_mentions
      { channel := "C1".data, user := "U1".data, ts := "1.2".data, files := [],
        text := "see https://h/f.pdf".data } okEnv).1.findIdx isWorkingSay = 2 := by
  decide

/-- Claim C4 as amended: in every successful run the controller performs
exactly one download and emits exactly one "work started" acknowledgement,
and the download precedes the acknowledgement (the source runs the
Acquirer first and acknowledges afterwards). -/
theorem c4_amended (ev : SlackEvent) (env : Env)
    (hd : (handle_mentions ev env).2 = .done) :
    (handle_mentions ev env).1.countP isWorkingSay = 1
    ∧ (handle_mentions ev env).1.countP isDownloadAct = 1
    ∧ (handle_mentions ev env).1.findIdx isDownloadAct
        < (handle_mentions ev env).1.findIdx isWorkingSay := by
  unfold handle_mentions at hd ⊢
  by_cases hD : leadsWith ("D".data) ev.channel = true
  · rw [if_pos hD] at hd ⊢
    rcases hI : env.usersInfoErr with _ | e <;> simp only [hI] at hd ⊢
    · obtain ⟨u, fn, lk, _, htr⟩ :=
        pipeline_done ev env [.usersInfo ev.user] env.userName hd
      rw [htr]
      refine ⟨?_, ?_, ?_⟩ <;>
        simp [List.countP_cons, List.findIdx_cons, isWorkingSay, isDownloadAct]
    · rcases exceptClauses_outcome ev env _ e with h | ⟨e1, h⟩ <;> rw [h] at hd <;>
        exact absurd hd (by simp)
  · rw [if_neg hD] at hd ⊢
    rcases hI : env.convInfoErr with _ | e <;> simp only [hI] at hd ⊢
    · obtain ⟨u, fn, lk, _, htr⟩ :=
        pipeline_done ev env [.convInfo ev.channel] env.channelName hd
      rw [htr]
      refine ⟨?_, ?_, ?_⟩ <;>
        simp [List.countP_cons, List.findIdx_cons, isWorkingSay, isDownloadAct]
    · rcases exceptClauses_outcome ev env _ e with h | ⟨e1, h⟩ <;> rw [h] at hd <;>
        exact absurd hd (by simp)

/-- Closed instance of `c4_amended` at a concrete successful run. -/
theorem c4_witness :
    (handle_mentions
      { channel := "C1".data, user := "U1".data, ts := "1.2".data, files := [],
        text := "see https://h/f.pdf".data } okEnv).1.countP isWorkingSay = 1
    ∧ (handle_mentions
      { channel := "C1".data, user := "U1".data, ts := "1.2".data, files := [],
        text := "see https://h/f.pdf".data } okEnv).1.countP isDownloadAct = 1
    ∧ (handle_mentions
      { channel := "C1".data, user := "U1".data, ts := "1.2".data, files := [],
        text := "see https://h/f.pdf".data } okEnv).1.findIdx isDownloadAct
        < (handle_mentions
          { channel := "C1".data, user := "U1".data, ts := "1.2".data, files := [],
            text := "see https://h/f.pdf".data } okEnv).1.findIdx isWorkingSay :=
  c4_amended
    { channel := "C1".data, user := "U1".data, ts := "1.2".data, files := [],
      text := "see https://h/f.pdf".data } okEnv (by decide)

/-- Closed instance of `c1_amended`: a genuine Slack file URL decomposes
around `slack.com`, so the bearer credential is attached to it. -/
theorem c1_witness :
    (downloadRequest ("https://files.slack.com/a.pdf".data)).2 = true :=
  (c1_amended ("https://files.slack.com/a.pdf".data)).mpr
    ⟨("https://files.".data), ("/a.pdf".data), by decide⟩
